import Mathlib

/-!
Verification development for the Automaton Auditor repository.

Shallow embedding of the state model (src/state.py), the reducer-based
state merging (operator.ior / operator.add), the Chief Justice synthesis
rules (src/nodes/justice.py), the detective-graph routing and retry logic
(src/graph.py), the entry point import (run.py), and the document analyst
node (src/nodes/detectives.py, src/tools/doc_tools.py).

Python machine-level conventions used throughout:
* fallible Python code (attribute errors, type errors, import errors,
  missing files) is embedded as `Except PyError`;
* Python `float` confidence values and score averages are embedded as `ℚ`
  (all arithmetic performed on them in this code base is exact at these
  magnitudes, and every comparison is against a decimal literal);
* wall-clock timestamps (datetime.now) are external inputs; records carry
  a `timestamp : Nat` field that callers fill with an arbitrary value.
-/

/-- The Python exception kinds that the embedded code can raise. -/
inductive PyError where
  | attributeError
  | typeError
  | fileNotFound
  | importError
deriving DecidableEq

/-- The three judge personas (src/state.py:32, `Literal["Prosecutor", "Defense", "TechLead"]`).
The spec calls them Harsh / Generous / Pragmatic. -/
inductive Judge where
  | Prosecutor
  | Defense
  | TechLead
deriving DecidableEq

/-- Forensic evidence collected by detectives (src/state.py:16-25).
Fields: goal, found, content, location, rationale, confidence, collected_by,
timestamp.  Note: the model defines NO `dimension_id` field. -/
structure Evidence where
  goal : String
  found : Bool
  content : Option String
  location : String
  rationale : String
  confidence : ℚ
  collected_by : String
  timestamp : Nat
deriving DecidableEq

/-- Attribute access `e.dimension_id` on an Evidence record
(src/nodes/justice.py:63 and :81).  The Evidence pydantic model
(src/state.py:16-25) declares no such field, so the access raises
`AttributeError` for every Evidence value. -/
def Evidence.getDimensionId (_e : Evidence) : Except PyError String :=
  .error .attributeError

/-- Opinion from a single judge persona (src/state.py:30-37). -/
structure JudicialOpinion where
  judge : Judge
  criterion_id : String
  score : ℤ
  argument : String
  cited_evidence : List String
  timestamp : Nat
deriving DecidableEq

/-- One rubric dimension as consumed by justice.py (a dict with at least
`"id"` and `"name"` keys, loaded by RubricLoader.get_dimensions). -/
structure Dimension where
  id : String
  name : String
deriving DecidableEq

/-- Final result for a single rubric criterion (src/state.py:42-52). -/
structure CriterionResult where
  dimension_id : String
  dimension_name : String
  final_score : ℤ
  judge_opinions : List JudicialOpinion
  dissent_summary : Option String
  remediation : String
deriving DecidableEq

/-- Complete audit report (src/state.py:55-62).  `generated_at` is a
wall-clock value (datetime.now default factory), modelled as an arbitrary
Nat defaulting to 0. -/
structure AuditReport where
  repo_url : String
  executive_summary : String
  overall_score : ℚ
  criteria : List CriterionResult
  remediation_plan : String
  generated_at : Nat := 0
deriving DecidableEq

/-- The evidences field of AgentState: `Dict[str, List[Evidence]]`
(src/state.py:82), embedded as a lookup function. -/
def EvidMap : Type := String → Option (List Evidence)

/-- The LangGraph state (src/state.py:67-92).  The annotated reducers are
embedded in `applyUpdate` below. -/
structure AgentState where
  repo_url : String
  pdf_path : String
  rubric_dimensions : List Dimension
  evidences : EvidMap
  opinions : List JudicialOpinion
  final_report : Option AuditReport
  errors : List String
  warnings : List String

/-- A partial state update as returned by a LangGraph node: the dict of
fields the node chooses to write.  An absent field is the structure's
default. -/
structure StateUpdate where
  evidences : Option EvidMap := none
  opinions : List JudicialOpinion := []
  errors : List String := []
  warnings : List String := []
  final_report : Option AuditReport := none

/-- Python `operator.ior` on dicts, the reducer registered for the
evidences field (src/state.py:82).  `a |= b` keeps every key of both
sides; on a key collision the value of the RIGHT operand `b` replaces the
value of `a`. -/
def operatorIor (a b : EvidMap) : EvidMap :=
  fun k => match b k with
    | some v => some v
    | none => a k

/-- Merging a node's partial update into the state, following the
Annotated reducers of src/state.py:74-92: `operator.ior` for evidences,
`operator.add` (list append) for opinions, errors and warnings, and plain
overwrite for the unannotated final_report field. -/
def applyUpdate (s : AgentState) (u : StateUpdate) : AgentState :=
  { s with
    evidences := match u.evidences with
      | some m => operatorIor s.evidences m
      | none => s.evidences
    opinions := s.opinions ++ u.opinions
    errors := s.errors ++ u.errors
    warnings := s.warnings ++ u.warnings
    final_report := match u.final_report with
      | some r => some r
      | none => s.final_report }

/-- Does `hay` start with `needle` (character lists)? -/
def charsStartWith (hay needle : List Char) : Bool :=
  match needle, hay with
  | [], _ => true
  | _ :: _, [] => false
  | n :: ns, h :: hs => n == h && charsStartWith hs ns

/-- Does `needle` occur contiguously inside `hay` (character lists)? -/
def charsContain (hay needle : List Char) : Bool :=
  match hay with
  | [] => needle.isEmpty
  | _ :: hs => charsStartWith hay needle || charsContain hs needle

/-- Python substring test `needle in hay` on str values. -/
def strContains (hay needle : String) : Bool :=
  charsContain hay.toList needle.toList

/-- Python `str.lower()`: lower-case every character. -/
def pyLower (s : String) : String :=
  String.mk (s.data.map Char.toLower)

/-- Python `any(term in text.lower() for term in terms)` as used by the
keyword checks of justice.py (lines 56-57 and 77-78). -/
def containsAnyTerm (text : String) (terms : List String) : Bool :=
  terms.any (fun t => strContains (pyLower text) t)

/-- Python `any(...)` over a generator whose element predicate may raise:
the predicate runs element by element, short-circuits on the first True,
and any raise aborts the whole expression. -/
def pyAny (p : α → Except PyError Bool) : List α → Except PyError Bool
  | [] => .ok false
  | x :: xs =>
    match p x with
    | .error e => .error e
    | .ok true => .ok true
    | .ok false => pyAny p xs

/-- Stable insertion used to model Python `sorted` with a key. -/
def insertSortedBy (key : α → ℤ) (x : α) : List α → List α
  | [] => [x]
  | y :: ys => if key x ≤ key y then x :: y :: ys else y :: insertSortedBy key x ys

/-- Python `sorted(xs, key=key)`: the ascending stable reordering. -/
def pySortedBy (key : α → ℤ) : List α → List α
  | [] => []
  | x :: xs => insertSortedBy key x (pySortedBy key xs)

/-- Python `sorted(scores)` on a list of ints (justice.py:111). -/
def pySorted (xs : List ℤ) : List ℤ :=
  pySortedBy id xs

/-- Python 3 `round`: nearest integer, ties to even.  (For the averages
of three 1..5 integer scores that justice.py rounds, the fractional part
is 0, 1/3 or 2/3, so the tie branch is never taken there.) -/
def pyRound (q : ℚ) : ℤ :=
  if q - Int.floor q = 1 / 2 then
    (if Int.floor q % 2 = 0 then Int.floor q else Int.floor q + 1)
  else round q

/-- Security-keyword list of the Security Override rule
(src/nodes/justice.py:56-57). -/
def securityTerms : List String :=
  ["security", "vulnerability", "os.system", "injection", "sandbox", "unsafe"]

/-- Depth/understanding keyword list of the Fact Supremacy rule
(src/nodes/justice.py:77-78). -/
def depthTerms : List String :=
  ["deep", "understanding", "metacognition", "sophisticated", "excellent"]

/-- Element predicate of the generator at src/nodes/justice.py:62-65:
`e.dimension_id == "safe_tool_engineering" and not e.found`.  The attribute
access on the left of the conjunction runs first, so the predicate raises
`AttributeError` for every Evidence record. -/
def securityEvidencePred (e : Evidence) : Except PyError Bool :=
  match e.getDimensionId with
  | .error err => .error err
  | .ok d => .ok (d == "safe_tool_engineering" && !e.found)

/-- Element predicate of the generator at src/nodes/justice.py:80-82:
`e.dimension_id == "theoretical_depth" and e.found and e.confidence > 0.7`.
Again the attribute access runs first. -/
def depthEvidencePred (e : Evidence) : Except PyError Bool :=
  match e.getDimensionId with
  | .error err => .error err
  | .ok d => .ok (d == "theoretical_depth" && e.found && decide ((7 : ℚ) / 10 < e.confidence))

/-- The canned remediation lookup table of src/nodes/justice.py:178-285. -/
def remediationMap : List (String × String) := [
  ("git_forensic_analysis", "**Issue:** Git history lacks clear progression from setup → tools → graph.\n\n**Remediation:**\n1. Reorganize commits to show iterative development\n2. Ensure commit messages reflect: setup, tool engineering, graph orchestration\n3. Avoid bulk uploads (single commit with all code)\n4. Add timestamps showing development over time\n\n**Files to update:** Entire repository git history"),
  ("state_management_rigor", "**Issue:** State management lacks proper Pydantic models or reducers.\n\n**Remediation:**\n1. Add Evidence class inheriting from BaseModel in src/state.py\n2. Add JudicialOpinion class inheriting from BaseModel\n3. Define AgentState with Annotated fields using operator.add and operator.ior\n4. Add field constraints (ge, le, descriptions)\n\n**Files to update:** src/state.py"),
  ("graph_orchestration", "**Issue:** Graph lacks proper parallel fan-out/fan-in patterns.\n\n**Remediation:**\n1. Ensure START branches to all detectives in parallel\n2. Add evidence aggregator node as fan-in point\n3. Wire judges in parallel from aggregator\n4. Add conditional edges for error handling\n5. Verify two distinct parallel layers exist\n\n**Files to update:** src/graph.py"),
  ("safe_tool_engineering", "**Issue:** Tools lack proper sandboxing or use unsafe operations.\n\n**Remediation:**\n1. Replace any os.system calls with subprocess.run()\n2. Use tempfile.TemporaryDirectory() for all git operations\n3. Add comprehensive error handling (try/except)\n4. Implement timeout protection for external calls\n5. Add input sanitization for repository URLs\n\n**Files to update:** src/tools/repo_tools.py"),
  ("structured_output_enforcement", "**Issue:** Judges not using structured output or missing retry logic.\n\n**Remediation:**\n1. Add .with_structured_output(JudicialOpinion) to all judge nodes\n2. Implement retry logic with exponential backoff\n3. Add fallback opinions when LLM fails\n4. Validate all opinions against schema before adding to state\n\n**Files to update:** src/nodes/judges.py"),
  ("judicial_nuance", "**Issue:** Judge personas not sufficiently distinct or missing conflicting philosophies.\n\n**Remediation:**\n1. Ensure Prosecutor prompt is adversarial (looks for flaws)\n2. Ensure Defense prompt is forgiving (rewards effort)\n3. Ensure Tech Lead prompt is pragmatic (focuses on code quality)\n4. Verify prompts differ by >50% in content and tone\n5. Add explicit scoring guidelines for each persona\n\n**Files to update:** src/nodes/judges.py"),
  ("chief_justice_synthesis", "**Issue:** Synthesis lacks deterministic rules or uses LLM averaging.\n\n**Remediation:**\n1. Implement security override rule (flaws cap score at 3)\n2. Implement fact supremacy rule (evidence overrules opinion)\n3. Implement functionality weight (Tech Lead highest for architecture)\n4. Add dissent summaries for variance > 2\n5. Write report to file, not console\n\n**Files to update:** src/nodes/justice.py"),
  ("theoretical_depth", "**Issue:** PDF report lacks deep explanation of key concepts.\n\n**Remediation:**\n1. Add detailed section on Dialectical Synthesis with code examples\n2. Explain Fan-In/Fan-Out patterns with diagrams\n3. Discuss Metacognition and how system self-evaluates\n4. Include architecture diagrams showing parallel flow\n5. Reference specific file paths in explanations\n\n**Files to update:** reports/final_report.pdf"),
  ("report_accuracy", "**Issue:** PDF report mentions files that don\x27t exist or makes unsupported claims.\n\n**Remediation:**\n1. Verify all file paths mentioned actually exist in repository\n2. Remove any hallucinated paths\n3. Ensure claims about implementation match actual code\n4. Cross-reference all evidence with codebase\n5. Update report to reflect actual implementation\n\n**Files to update:** reports/final_report.pdf"),
  ("swarm_visual", "**Issue:** Missing or inaccurate architecture diagrams.\n\n**Remediation:**\n1. Add clear diagram showing parallel fan-out/fan-in for detectives\n2. Add diagram showing parallel fan-out/fan-in for judges\n3. Ensure diagrams match actual graph implementation\n4. Include conditional error paths in diagrams\n5. Use Mermaid syntax for GitHub rendering\n\n**Files to update:** reports/final_report.pdf, README.md")]

/-- src/nodes/justice.py:173-287 `generate_remediation` (the evidences
argument is accepted and unused, exactly as in the source). -/
def generate_remediation (dim_id : String) (score : ℤ) (_evidences : EvidMap) : String :=
  if 4 ≤ score then
    "No remediation needed. Implementation meets or exceeds expectations."
  else
    match remediationMap.lookup dim_id with
    | some r => r
    | none => "Review implementation of " ++ dim_id ++ " against rubric requirements and improve accordingly."

/-- Python `sum(c.final_score for c in criteria) / len(criteria) if criteria else 0`,
the expression used both at src/nodes/justice.py:140 for the overall score
and at :291 for the executive summary average. -/
def averageScore (criteria : List CriterionResult) : ℚ :=
  if criteria.length = 0 then 0
  else (criteria.map (fun c => (c.final_score : ℚ))).sum / criteria.length

/-- Decimal rendering of the score average, modelling the `{x:.1f}`
format specifier used in the summary strings. -/
def fmt1 (q : ℚ) : String :=
  let n := pyRound (q * 10)
  toString (n / 10) ++ "." ++ toString (n % 10)

/-- src/nodes/justice.py:289-322 `generate_executive_summary`. -/
def generate_executive_summary (criteria : List CriterionResult) : String :=
  let avgScore := averageScore criteria
  let strengths := (criteria.filter (fun c => decide (4 ≤ c.final_score))).map (fun c => c.dimension_name)
  let weaknesses := (criteria.filter (fun c => decide (c.final_score ≤ 2))).map (fun c => c.dimension_name)
  let needsAttention := (criteria.filter (fun c => decide (2 < c.final_score) && decide (c.final_score < 4))).map (fun c => c.dimension_name)
  let header := "## Executive Summary\n\n**Overall Score: " ++ fmt1 avgScore ++ "/5**\n\n### Key Findings\n"
  let sStr := if strengths.isEmpty then "" else
    "\n**Strengths:**\n" ++ String.join (strengths.map (fun s => "- ✅ " ++ s ++ "\n"))
  let nStr := if needsAttention.isEmpty then "" else
    "\n**Needs Attention:**\n" ++ String.join (needsAttention.map (fun s => "- 📌 " ++ s ++ "\n"))
  let wStr := if weaknesses.isEmpty then "" else
    "\n**Critical Issues:**\n" ++ String.join (weaknesses.map (fun s => "- ⚠️ " ++ s ++ "\n"))
  let quality := if (4 : ℚ) ≤ avgScore then "strong" else if (3 : ℚ) ≤ avgScore then "adequate" else "weak"
  let advice := if weaknesses.isEmpty && needsAttention.isEmpty then
      "All dimensions meet or exceed expectations."
    else
      "Focus on addressing critical issues and areas needing attention."
  let count := toString criteria.length
  header ++ sStr ++ nStr ++ wStr ++ "\n### Summary\nThe system demonstrates " ++ quality ++
    " implementation across " ++ count ++ " dimensions. \n" ++ advice ++ "\n"

/-- One priority section of the remediation plan (src/nodes/justice.py:337-353). -/
def remediationSection (title : String) (items : List CriterionResult) : String :=
  if items.isEmpty then "" else
    title ++ String.join (items.map (fun c => "#### " ++ c.dimension_name ++ "\n" ++ c.remediation ++ "\n\n"))

/-- src/nodes/justice.py:324-355 `generate_remediation_plan`. -/
def generate_remediation_plan (criteria : List CriterionResult) : String :=
  let sortedCriteria := pySortedBy (fun c => c.final_score) criteria
  let critical := sortedCriteria.filter (fun c => decide (c.final_score ≤ 2))
  let high := sortedCriteria.filter (fun c => decide (2 < c.final_score) && decide (c.final_score < 4))
  let low := sortedCriteria.filter (fun c => decide (4 ≤ c.final_score))
  "## Remediation Plan\n\n" ++
    remediationSection "### 🔴 CRITICAL PRIORITY (Must Fix)\n\n" critical ++
    remediationSection "### 🟡 HIGH PRIORITY (Should Fix)\n\n" high ++
    remediationSection "### 🟢 LOW PRIORITY (Nice to Have)\n\n" low

/-- The rule cascade of chief_justice_node for one dimension that has at
least one opinion (src/nodes/justice.py:37-122), producing the final score
and the optional dissent summary.  Mirrors the source statement for
statement; the two evidence scans go through `pyAny`, whose element
predicates raise AttributeError (justice.py reads `e.dimension_id`, a field
Evidence does not define). -/
def synthScoreDissent (dim : Dimension) (dimOpinions : List JudicialOpinion) (evidences : EvidMap) :
    Except PyError (ℤ × Option String) :=
  -- justice.py:38-40: extract opinions by judge
  let prosecutor := dimOpinions.find? (fun o => o.judge == Judge.Prosecutor)
  let defense := dimOpinions.find? (fun o => o.judge == Judge.Defense)
  let tech := dimOpinions.find? (fun o => o.judge == Judge.TechLead)
  -- justice.py:42-45: get scores (default to 3 if missing)
  let prosecutorScore : ℤ := match prosecutor with | some o => o.score | none => 3
  let defenseScore : ℤ := match defense with | some o => o.score | none => 3
  let techScore : ℤ := match tech with | some o => o.score | none => 3
  let maxScore := max prosecutorScore (max defenseScore techScore)
  let minScore := min prosecutorScore (min defenseScore techScore)
  -- RULE 1, keyword half (justice.py:56-59)
  let securityKeyword :=
    match prosecutor with
    | some p => containsAnyTerm p.argument securityTerms
    | none => false
  -- RULE 1, evidence half (justice.py:61-65): computed before the branch,
  -- for every dimension that has opinions
  match pyAny securityEvidencePred ((evidences "repo").getD []) with
  | .error e => .error e
  | .ok securityEvidence =>
    if securityKeyword || securityEvidence then
      -- justice.py:71-74
      let finalScore := min 3 maxScore
      let reason :=
        if securityEvidence then "Evidence shows security tooling issues"
        else match prosecutor with
          | some p => p.argument.take 150
          | none => ""
      .ok (finalScore, some ("🔒 SECURITY OVERRIDE: Score capped at 3 due to security concerns. " ++ reason))
    else
      -- RULE 2 (justice.py:76-94)
      let factCond :=
        match defense with
        | some d => decide (4 ≤ defenseScore) && containsAnyTerm d.argument depthTerms
        | none => false
      if factCond then
        match pyAny depthEvidencePred ((evidences "doc").getD []) with
        | .error e => .error e
        | .ok hasDeepEvidence =>
          if !hasDeepEvidence then
            .ok (techScore, some ("📊 FACT SUPREMACY: Defense claim of deep understanding not supported by evidence. Using Tech Lead score (" ++ toString techScore ++ ")."))
          else
            .ok (defenseScore, none)
      else if dim.id == "graph_orchestration" then
        -- RULE 3 (justice.py:96-101)
        .ok (techScore, some ("⚙️ FUNCTIONALITY WEIGHT: Tech Lead opinion prioritized for architecture criterion (score: " ++ toString techScore ++ ")"))
      else
        -- variance handling (justice.py:103-122)
        let variance := maxScore - minScore
        if 2 < variance then
          let sortedScores := pySorted [prosecutorScore, defenseScore, techScore]
          let finalScore := sortedScores[1]!
          .ok (finalScore, some ("⚖️ DISSENT: Significant disagreement (variance=" ++ toString variance ++ "). Prosecutor=" ++ toString prosecutorScore ++ ", Defense=" ++ toString defenseScore ++ ", Tech=" ++ toString techScore ++ ". Using median score " ++ toString finalScore ++ "."))
        else
          .ok (pyRound (((prosecutorScore : ℚ) + (defenseScore : ℚ) + (techScore : ℚ)) / 3), none)

/-- Synthesis of one rubric dimension (one iteration of the loop at
src/nodes/justice.py:28-135): a dimension with no opinions is skipped
(`.ok none`), otherwise the rule cascade runs and the CriterionResult of
justice.py:128-135 is built. -/
def synthCriterion (dim : Dimension) (opinions : List JudicialOpinion) (evidences : EvidMap) :
    Except PyError (Option CriterionResult) :=
  let dimOpinions := opinions.filter (fun o => o.criterion_id == dim.id)
  if dimOpinions.isEmpty then
    -- justice.py:33-35: "No opinions for ..., skipping" (console only)
    .ok none
  else
    match synthScoreDissent dim dimOpinions evidences with
    | .error e => .error e
    | .ok fd =>
      .ok (some {
        dimension_id := dim.id
        dimension_name := dim.name
        final_score := fd.1
        judge_opinions := dimOpinions
        dissent_summary := fd.2
        remediation := generate_remediation dim.id fd.1 evidences })

/-- The full synthesis loop over the rubric (src/nodes/justice.py:28-135),
collecting the produced CriterionResults in rubric order; a raise inside
any iteration aborts the whole node. -/
def dimResults (dims : List Dimension) (opinions : List JudicialOpinion) (evidences : EvidMap) :
    Except PyError (List CriterionResult) :=
  match dims with
  | [] => .ok []
  | d :: ds =>
    match synthCriterion d opinions evidences with
    | .error e => .error e
    | .ok none => dimResults ds opinions evidences
    | .ok (some c) =>
      match dimResults ds opinions evidences with
      | .error e => .error e
      | .ok cs => .ok (c :: cs)

/-- src/nodes/justice.py:8-171 `chief_justice_node`.  The node additionally
renders and writes a Markdown file (justice.py:157-168, filesystem I/O
outside the state model); its state update is exactly the dict returned at
justice.py:171. -/
def chief_justice_node (st : AgentState) : Except PyError StateUpdate :=
  match dimResults st.rubric_dimensions st.opinions st.evidences with
  | .error e => .error e
  | .ok criteriaResults =>
    let report : AuditReport := {
      repo_url := st.repo_url
      executive_summary := generate_executive_summary criteriaResults
      overall_score := averageScore criteriaResults
      criteria := criteriaResults
      remediation_plan := generate_remediation_plan criteriaResults }
    .ok { final_report := some report }

/-- src/graph.py:15-26 `should_retry_or_fail`, the conditional edge after
the evidence aggregator.  Returns one of the routing labels "fail",
"retry", "continue". -/
def should_retry_or_fail (s : AgentState) : String :=
  let errorCount := s.errors.length
  if 3 < errorCount then "fail"
  else if 0 < errorCount then "retry"
  else "continue"

/-- src/graph.py:28-35 `check_evidence_exists`, the conditional edge after
the evidence check node. -/
def check_evidence_exists (s : AgentState) : String :=
  let totalEvidence := ((s.evidences "repo").getD []).length + ((s.evidences "doc").getD []).length
  if totalEvidence = 0 then "missing_evidence" else "has_evidence"

/-- src/graph.py:110-114 `retry_operation`: the retry node returns
`{"errors": []}`.  Because the errors field is Annotated with operator.add
(src/state.py:91), this update is APPENDED, not assigned. -/
def retry_operation : StateUpdate := { errors := [] }

/-- src/graph.py:103-108 `handle_errors`: the error-handling terminal node
returns one warning. -/
def handle_errors : StateUpdate := { warnings := ["Graph terminated due to errors"] }

/-- src/graph.py:116-120 `check_evidence_node`: returns `{}`. -/
def check_evidence_node : StateUpdate := {}

/-- src/nodes/detectives.py:171-188 `evidence_aggregator_node`: a pure
synchronization point, returns `{}`. -/
def evidence_aggregator_node : StateUpdate := {}

/-- src/nodes/detectives.py:12-91 `repo_investigator_node` always returns
`{"evidences": {"repo": evidences}}`; the evidence list itself comes from
the external repository analysis (RepoInvestigator), so it is a parameter.
Note the node never writes the errors field. -/
def repo_investigator_update (evs : List Evidence) : StateUpdate :=
  { evidences := some (fun k => if k = "repo" then some evs else none) }

/-- One pass around the retry cycle of the detective graph
(src/graph.py:68-92): the router sent the run to retry_node, whose update
is merged, then the edge retry_node → repo_investigator re-runs the repo
detective (producing some evidence list `evs`), then the aggregator runs;
after this pass `should_retry_or_fail` is evaluated again. -/
def retryCycle (evs : List Evidence) (s : AgentState) : AgentState :=
  applyUpdate (applyUpdate (applyUpdate s retry_operation) (repo_investigator_update evs)) evidence_aggregator_node

/-- The names defined or imported at the top level of src/graph.py — the
attributes available to `from src.graph import ...`. -/
def graphModuleNames : List String :=
  ["StateGraph", "START", "END", "MemorySaver", "Dict", "Any", "Literal",
   "AgentState", "repo_investigator_node", "doc_analyst_node",
   "evidence_aggregator_node", "RubricLoader",
   "should_retry_or_fail", "check_evidence_exists", "create_detective_graph",
   "handle_errors", "retry_operation", "check_evidence_node",
   "run_detective_phase"]

/-- run.py:13 `from src.graph import run_full_audit`: Python name
resolution against the module's attributes; a missing name raises
ImportError before anything else in run.py executes. -/
def run_entry_import : Except PyError Unit :=
  if "run_full_audit" ∈ graphModuleNames then .ok () else .error .importError

/-- src/graph.py:122-154 `run_detective_phase`: invoking the compiled graph
is external (`graphResult` parameter); an exception from the invocation is
caught and turned into `{**initial_state, "errors": [str(e)]}`. -/
def run_detective_phase (initial : AgentState) (graphResult : Except String AgentState) : AgentState :=
  match graphResult with
  | .ok r => r
  | .error e => { initial with errors := [e] }

/-- One text chunk (src/tools/doc_tools.py:39-43); chunk_id is the first 8
hex characters of the md5 of the text, the hash itself being an external
function parameter. -/
structure Chunk where
  text : String
  start_idx : Nat
  chunk_id : String
deriving DecidableEq

/-- The chunking loop of DocAnalyst.chunk_text (src/tools/doc_tools.py:35-47):
`for i in range(0, len(words), chunk_size - overlap)` with an early break
once `i + chunk_size >= len(words)`.  `step = chunk_size - overlap` is 450
at every call site, so the loop advances; the fuel argument (number of
remaining loop iterations, at most `words.length + 1` since step ≥ 1 in
every reachable call) makes the recursion structural. -/
def chunkLoop (hash : String → String) (words : List String) (size step : Nat) :
    Nat → Nat → List Chunk
  | _, 0 => []
  | i, fuel + 1 =>
    if i < words.length then
      let chunkWords := (words.drop i).take size
      let chunkText := String.intercalate " " chunkWords
      let c : Chunk := { text := chunkText, start_idx := i, chunk_id := (hash chunkText).take 8 }
      if words.length ≤ i + size then [c]
      else c :: chunkLoop hash words size step (i + step) fuel
    else []

/-- src/tools/doc_tools.py:30-49 `DocAnalyst.chunk_text(self, text, chunk_size=500, overlap=50)`.
`text` is a REQUIRED positional parameter: a call that omits it raises
TypeError, embedded as the `none` case.  `hash` abstracts hashlib.md5
hexdigest. -/
def DocAnalyst.chunk_text (hash : String → String) (text : Option String)
    (chunk_size overlap : Nat) : Except PyError (List Chunk) :=
  match text with
  | none => .error .typeError
  | some t =>
    let words := (t.split Char.isWhitespace).filter (fun w => w ≠ "")
    .ok (chunkLoop hash words chunk_size (chunk_size - overlap) 0 (words.length + 1))

/-- The str(e) messages of the exceptions arising in the embedded code
(`path` is interpolated into the FileNotFoundError raised at
src/tools/doc_tools.py:22). -/
def pyErrorMsg (path : String) : PyError → String
  | .fileNotFound => "PDF not found: " ++ path
  | .typeError => "DocAnalyst.chunk_text() missing 1 required positional argument: \x27text\x27"
  | .attributeError => "\x27Evidence\x27 object has no attribute \x27dimension_id\x27"
  | .importError => "cannot import name \x27run_full_audit\x27 from \x27src.graph\x27"

/-- src/tools/doc_tools.py:19-28 `DocAnalyst.extract_text`: raises
FileNotFoundError when the path does not exist, otherwise yields whatever
text pypdf extracts (external, hence the `pyPdfText` parameter, which may
itself be a pypdf failure). -/
def extract_text (pdfExists : Bool) (pyPdfText : Except PyError String) : Except PyError String :=
  if pdfExists then pyPdfText else .error .fileNotFound

/-- The fallback Evidence built in the `except FileNotFoundError` branch of
doc_analyst_node (src/nodes/detectives.py:148-157). -/
def docFileNotFoundEvidence (pdfPath : String) (now : Nat) : Evidence :=
  { goal := "Access PDF file", found := false,
    content := some (pyErrorMsg pdfPath .fileNotFound),
    location := pdfPath,
    rationale := "PDF file not found: " ++ pyErrorMsg pdfPath .fileNotFound,
    confidence := 0, collected_by := "DocAnalyst", timestamp := now }

/-- The fallback Evidence built in the generic `except Exception` branch of
doc_analyst_node (src/nodes/detectives.py:158-167). -/
def docParseFailEvidence (pdfPath : String) (e : PyError) (now : Nat) : Evidence :=
  { goal := "Parse PDF successfully", found := false,
    content := some (pyErrorMsg pdfPath e),
    location := pdfPath,
    rationale := "Error parsing PDF: " ++ pyErrorMsg pdfPath e,
    confidence := 0, collected_by := "DocAnalyst", timestamp := now }

/-- src/nodes/detectives.py:93-169 `doc_analyst_node`.  The try block runs
extract_text, then calls `analyst.chunk_text()` WITHOUT the required text
argument (detectives.py:105), then would run the concept-depth / file-path
/ diagram analyses (external RAG machinery, abstracted as `ragEvidence`).
A FileNotFoundError is converted to one fallback Evidence, any other
exception to another; the node returns `{"evidences": {"doc": evidences}}`. -/
def doc_analyst_node (pdfPath : String) (pdfExists : Bool) (pyPdfText : Except PyError String)
    (hash : String → String) (ragEvidence : Except PyError (List Evidence)) (now : Nat) :
    StateUpdate :=
  let tryBlock : Except PyError (List Evidence) :=
    match extract_text pdfExists pyPdfText with
    | .error e => .error e
    | .ok _text =>
      match DocAnalyst.chunk_text hash none 500 50 with
      | .error e => .error e
      | .ok _chunks => ragEvidence
  let evidences : List Evidence :=
    match tryBlock with
    | .ok evs => evs
    | .error .fileNotFound => [docFileNotFoundEvidence pdfPath now]
    | .error e => [docParseFailEvidence pdfPath e now]
  { evidences := some (fun k => if k = "doc" then some evidences else none) }

/-- Modelled from the spec (§4.3 missing-opinion policy): the
persona-specific default scores the spec prescribes for a missing opinion
(Harsh→1, Generous→4, Pragmatic→3).  Written from the spec's words for
comparison with the uniform default 3 that justice.py:43-45 actually
uses. -/
def specDefaultScore : Judge → ℤ
  | .Prosecutor => 1
  | .Defense => 4
  | .TechLead => 3

/-- View of a synthesis outcome as (final score, dissent summary). -/
def resultView (r : Except PyError (Option CriterionResult)) :
    Except PyError (Option (ℤ × Option String)) :=
  r.map (fun o => o.map (fun c => (c.final_score, c.dissent_summary)))

/-- Opinion constructor used by the concrete test inputs below. -/
def mkOp (j : Judge) (cid : String) (s : ℤ) (arg : String) : JudicialOpinion :=
  { judge := j, criterion_id := cid, score := s, argument := arg,
    cited_evidence := [], timestamp := 0 }

/-- The empty evidences dict. -/
def emptyEvidences : EvidMap := fun _ => none

/-- A repo evidence record as produced by repo_investigator_node
(detectives.py:28-41). -/
def evRepoA : Evidence :=
  { goal := "Git commit history shows progression (setup → tools → graph)",
    found := true, content := none, location := "git log",
    rationale := "Found 12 commits", confidence := 9 / 10,
    collected_by := "RepoInvestigator", timestamp := 0 }

/-- A second repo evidence record (detectives.py:44-53). -/
def evRepoB : Evidence :=
  { goal := "Graph has parallel fan-out architecture",
    found := true, content := none, location := "src/graph.py",
    rationale := "Parallel execution detected", confidence := 19 / 20,
    collected_by := "RepoInvestigator", timestamp := 0 }

/-- A doc evidence record as produced by doc_analyst_node. -/
def evDocA : Evidence :=
  { goal := "PDF includes architecture diagrams",
    found := false, content := none, location := "PDF diagrams section",
    rationale := "Found 0 mentions of diagrams", confidence := 1 / 10,
    collected_by := "DocAnalyst", timestamp := 0 }

/-- Singleton evidences dicts used as partial updates. -/
def mapRepoA : EvidMap := fun k => if k = "repo" then some [evRepoA] else none

def mapRepoB : EvidMap := fun k => if k = "repo" then some [evRepoB] else none

def mapDocA : EvidMap := fun k => if k = "doc" then some [evDocA] else none

/-- The not-found sandboxing evidence of detectives.py:69-77 (found=false
against safe tooling). -/
def evSafeToolMissing : Evidence :=
  { goal := "Tools use proper sandboxing (tempfile, no os.system)",
    found := false, content := none, location := "src/tools/",
    rationale := "Tempfile: False. No os.system: True", confidence := 1 / 5,
    collected_by := "RepoInvestigator", timestamp := 0 }

def dimSafeTool : Dimension := { id := "safe_tool_engineering", name := "Safe Tool Engineering" }

def dimGraphOrch : Dimension := { id := "graph_orchestration", name := "Graph Orchestration" }

def dimStateMgmt : Dimension := { id := "state_management_rigor", name := "State Management Rigor" }

def dimJudNuance : Dimension := { id := "judicial_nuance", name := "Judicial Nuance" }

/-- State reaching chief_justice_node with found=false safe-tooling repo
evidence and an opinion for the matching criterion. -/
def c2State : AgentState :=
  { repo_url := "https://github.com/acme/target",
    pdf_path := "reports/final_report.pdf",
    rubric_dimensions := [dimSafeTool],
    evidences := fun k => if k = "repo" then some [evSafeToolMissing] else none,
    opinions := [mkOp Judge.TechLead "safe_tool_engineering" 4 "solid tooling"],
    final_report := none, errors := [], warnings := [] }

/-- Opinions for the missing-Prosecutor input: only Defense and TechLead
produced opinions. -/
def c3Defense : JudicialOpinion := mkOp Judge.Defense "state_management_rigor" 5 "well organized models"

def c3Tech : JudicialOpinion := mkOp Judge.TechLead "state_management_rigor" 5 "clean and typed"

/-- Three full opinion sets exercising the variance rules. -/
def c4pA : JudicialOpinion := mkOp Judge.Prosecutor "judicial_nuance" 1 "lacking tests"

def c4dA : JudicialOpinion := mkOp Judge.Defense "judicial_nuance" 5 "good effort throughout"

def c4tA : JudicialOpinion := mkOp Judge.TechLead "judicial_nuance" 3 "average quality"

def c4pB : JudicialOpinion := mkOp Judge.Prosecutor "judicial_nuance" 3 "some gaps remain"

def c4dB : JudicialOpinion := mkOp Judge.Defense "judicial_nuance" 4 "solid work"

def c4tB : JudicialOpinion := mkOp Judge.TechLead "judicial_nuance" 4 "maintainable code"

/-- A state whose errors list puts the router on the retry branch and whose
evidences dict is a fixed point of the retry cycle. -/
def c5FixState : AgentState :=
  { repo_url := "https://github.com/acme/looper",
    pdf_path := "reports/r.pdf",
    rubric_dimensions := [],
    evidences := fun k => if k = "repo" then some [] else none,
    opinions := [], final_report := none,
    errors := ["git clone failed"], warnings := [] }

/-- A retry-branch state for iterating the cycle. -/
def c5State : AgentState :=
  { repo_url := "https://github.com/acme/retrier",
    pdf_path := "reports/r2.pdf",
    rubric_dimensions := [],
    evidences := emptyEvidences,
    opinions := [], final_report := none,
    errors := ["pdf parse failed"], warnings := [] }

/-- A state whose single rubric dimension collected zero opinions. -/
def c7State : AgentState :=
  { repo_url := "https://github.com/acme/empty",
    pdf_path := "reports/final_report.pdf",
    rubric_dimensions := [dimStateMgmt],
    evidences := emptyEvidences,
    opinions := [], final_report := none, errors := [], warnings := [] }

/-- Two rubric dimensions, opinions only for the second. -/
def c7WitState : AgentState :=
  { repo_url := "https://github.com/acme/partial",
    pdf_path := "reports/final_report.pdf",
    rubric_dimensions := [dimStateMgmt, dimJudNuance],
    evidences := emptyEvidences,
    opinions := [mkOp Judge.TechLead "judicial_nuance" 4 "fine"],
    final_report := none, errors := [], warnings := [] }

/-- Opinions exercising the Fact Supremacy rule: Defense scores 5 with a
depth keyword. -/
def c8p : JudicialOpinion := mkOp Judge.Prosecutor "judicial_nuance" 2 "needs more tests"

def c8d : JudicialOpinion := mkOp Judge.Defense "judicial_nuance" 5 "deep understanding of the material"

def c8t : JudicialOpinion := mkOp Judge.TechLead "judicial_nuance" 3 "acceptable quality"

/-- A doc evidence record that would corroborate depth (found=true,
confidence 0.9). -/
def evDocDeep : Evidence :=
  { goal := "PDF explains \x27Dialectical Synthesis\x27 in depth (not just keyword dropping)",
    found := true, content := none, location := "PDF: Dialectical Synthesis section",
    rationale := "Depth: deep. Found explanation", confidence := 9 / 10,
    collected_by := "DocAnalyst", timestamp := 0 }

/-- A doc evidence record that does not corroborate depth. -/
def evDocShallow : Evidence :=
  { goal := "PDF explains \x27Fan-In\x27 in depth (not just keyword dropping)",
    found := false, content := none, location := "PDF: Fan-In section",
    rationale := "Depth: superficial. Keyword only", confidence := 1 / 10,
    collected_by := "DocAnalyst", timestamp := 0 }

def mapDocDeep : EvidMap := fun k => if k = "doc" then some [evDocDeep] else none

def mapDocShallow : EvidMap := fun k => if k = "doc" then some [evDocShallow] else none

/-- State reaching chief_justice_node with non-empty repo evidence and an
opinion for some rubric dimension. -/
def c9State : AgentState :=
  { repo_url := "https://github.com/acme/sample",
    pdf_path := "reports/interim_report.pdf",
    rubric_dimensions := [dimGraphOrch],
    evidences := fun k => if k = "repo" then some [evRepoA] else none,
    opinions := [mkOp Judge.Prosecutor "graph_orchestration" 2 "missing reducers"],
    final_report := none, errors := [], warnings := [] }

/-- C1 (counterexample): the registered evidences merge is `operator.ior`,
which does NOT concatenate on a key collision: merging two updates that
both write the key "repo" keeps only the right side's list, dropping the
left side's Evidence record, and the merge is not commutative at this
input. -/
theorem c1_counterexample :
    operatorIor mapRepoA mapRepoB "repo" = some [evRepoB]
    ∧ operatorIor mapRepoB mapRepoA "repo" = some [evRepoA]
    ∧ operatorIor mapRepoA mapRepoB "repo" ≠ some [evRepoA, evRepoB] := by
  refine ⟨rfl, rfl, ?_⟩
  decide

/-- C1 (amended): `operator.ior` is a right-biased dict union: it is
commutative exactly when the two updates touch disjoint key sets (the
case of the two detectives, which write "repo" and "doc"); the right
operand's list is always kept, the left operand's list is kept only when
the right does not write the same key, and no KEY is ever lost.  On a key
collision (e.g. the retry path re-running a detective) the earlier list
is overwritten, not concatenated. -/
theorem c1_ior_props (a b : EvidMap) :
    ((∀ k, a k = none ∨ b k = none) → operatorIor a b = operatorIor b a)
    ∧ (∀ k v, b k = some v → operatorIor a b k = some v)
    ∧ (∀ k v, a k = some v → b k = none → operatorIor a b k = some v)
    ∧ (∀ k, operatorIor a b k = none → a k = none ∧ b k = none) := by
  refine ⟨?_, ?_, ?_, ?_⟩
  · intro h
    funext k
    rcases h k with h1 | h1
    · simp only [operatorIor, h1]
      cases hb : b k <;> simp [hb]
    · simp only [operatorIor, h1]
      cases ha : a k <;> simp [ha]
  · intro k v hb
    simp only [operatorIor, hb]
  · intro k v ha hb
    simp only [operatorIor, hb, ha]
  · intro k h
    simp only [operatorIor] at h
    cases hb : b k with
    | some v => simp [hb] at h
    | none => simp only [hb] at h; exact ⟨h, rfl⟩

/-- C1 witness: the amended properties at the two detectives' actual
updates (disjoint keys "repo" and "doc"). -/
theorem c1_ior_props_witness :
    operatorIor mapRepoA mapDocA = operatorIor mapDocA mapRepoA
    ∧ operatorIor mapRepoA mapDocA "doc" = some [evDocA]
    ∧ operatorIor mapRepoA mapDocA "repo" = some [evRepoA] := by
  obtain ⟨h1, h2, h3, _⟩ := c1_ior_props mapRepoA mapDocA
  refine ⟨h1 ?_, h2 "doc" [evDocA] rfl, h3 "repo" [evRepoA] rfl rfl⟩
  intro k
  by_cases hk : k = "repo"
  · right
    simp [mapDocA, hk]
  · left
    simp [mapRepoA, hk]

/-- C2 (code bug): whenever the evidences dict holds a non-empty list
under "repo" — in particular when it holds a found=false record against
safe tooling, the very situation the Security Override is specified to
cap — chief_justice_node raises AttributeError (justice.py:63 reads
`e.dimension_id`, which Evidence does not define) instead of producing
the min(3, max(scores)) result. -/
theorem c2_security_evidence_attribute_crash :
    chief_justice_node c2State = .error .attributeError := by
  rfl

/-- C6 (code bug): run.py:13 does `from src.graph import run_full_audit`,
but src/graph.py defines no attribute of that name, so the entry point
dies with ImportError before any audit can run or return a result. -/
theorem c6_import_error : run_entry_import = .error .importError := by
  rfl

/-- C10: for every existing, readable PDF (extract_text succeeds with any
text), doc_analyst_node stores exactly one Evidence under "doc", with
found=false and confidence 0: the call `analyst.chunk_text()` at
detectives.py:105 omits the required text parameter, so TypeError is
raised and caught by the generic handler before any concept-depth
evidence can be produced — regardless of what the downstream RAG analysis
would have returned. -/
theorem c10_doc_typeerror (pdfPath text : String) (hash : String → String)
    (rag : Except PyError (List Evidence)) (now : Nat) :
    (doc_analyst_node pdfPath true (.ok text) hash rag now).evidences.map (fun m => m "doc")
      = some (some [docParseFailEvidence pdfPath .typeError now])
    ∧ (docParseFailEvidence pdfPath .typeError now).found = false
    ∧ (docParseFailEvidence pdfPath .typeError now).confidence = 0 :=
  ⟨rfl, rfl, rfl⟩

/-- Helper: the rule cascade raises AttributeError as soon as the repo
evidence list is non-empty, because the very first generator element of
the security-evidence scan reads the missing `dimension_id` attribute. -/
theorem synthScoreDissent_error_of_repo (dim : Dimension) (dimOps : List JudicialOpinion)
    (evid : EvidMap) (e : Evidence) (es : List Evidence)
    (hrepo : evid "repo" = some (e :: es)) :
    synthScoreDissent dim dimOps evid = .error .attributeError := by
  simp [synthScoreDissent, hrepo, pyAny, securityEvidencePred, Evidence.getDimensionId]

/-- Helper: the same raise propagates out of the per-dimension synthesis
whenever the dimension has at least one opinion. -/
theorem synthCriterion_error_of_repo (dim : Dimension) (ops : List JudicialOpinion)
    (evid : EvidMap) (e : Evidence) (es : List Evidence)
    (hne : ops.filter (fun o => o.criterion_id == dim.id) ≠ [])
    (hrepo : evid "repo" = some (e :: es)) :
    synthCriterion dim ops evid = .error .attributeError := by
  have hary := synthScoreDissent_error_of_repo dim
    (ops.filter (fun o => o.criterion_id == dim.id)) evid e es hrepo
  simp only [synthCriterion]
  rw [if_neg (by simp [List.isEmpty_eq_false.mpr hne]), hary]

/-- Helper: the raise propagates through the synthesis loop as soon as
some rubric dimension has an opinion. -/
theorem dimResults_error_of_repo (dims : List Dimension) (ops : List JudicialOpinion)
    (evid : EvidMap) (e : Evidence) (es : List Evidence)
    (hrepo : evid "repo" = some (e :: es))
    (hdim : ∃ d ∈ dims, ops.filter (fun o => o.criterion_id == d.id) ≠ []) :
    dimResults dims ops evid = .error .attributeError := by
  induction dims with
  | nil =>
    rcases hdim with ⟨d, hd, _⟩
    exact absurd hd (List.not_mem_nil d)
  | cons d ds ih =>
    by_cases hf : ops.filter (fun o => o.criterion_id == d.id) = []
    · have hok : synthCriterion d ops evid = .ok none := by
        simp [synthCriterion, hf]
      simp only [dimResults, hok]
      apply ih
      rcases hdim with ⟨d', hd', hne'⟩
      rcases List.mem_cons.mp hd' with rfl | hmem
      · exact (hne' hf).elim
      · exact ⟨d', hmem, hne'⟩
    · have herr := synthCriterion_error_of_repo d ops evid e es hf hrepo
      simp [dimResults, herr]

/-- C9: for every state holding a non-empty Evidence list under "repo"
whose rubric has at least one dimension with an opinion, chief_justice_node
reads the undefined `dimension_id` attribute during the security-evidence
check (justice.py:62-65) and raises AttributeError instead of returning a
report. -/
theorem c9_attribute_error (st : AgentState) (e : Evidence) (es : List Evidence)
    (hrepo : st.evidences "repo" = some (e :: es))
    (hdim : ∃ d ∈ st.rubric_dimensions, st.opinions.filter (fun o => o.criterion_id == d.id) ≠ []) :
    chief_justice_node st = .error .attributeError := by
  have h := dimResults_error_of_repo st.rubric_dimensions st.opinions st.evidences e es hrepo hdim
  simp [chief_justice_node, h]

/-- C9 witness: a concrete state with one repo evidence record and one
opinion crashes synthesis. -/
theorem c9_attribute_error_witness : chief_justice_node c9State = .error .attributeError :=
  c9_attribute_error c9State evRepoA [] rfl ⟨dimGraphOrch, by decide, by decide⟩

/-- Helper: one pass of the retry cycle leaves the errors list unchanged —
retry_operation returns `{"errors": []}`, which the operator.add reducer
APPENDS (a no-op), and neither the repo detective nor the aggregator
writes errors. -/
theorem retryCycle_errors (evs : List Evidence) (s : AgentState) :
    (retryCycle evs s).errors = s.errors := by
  simp [retryCycle, applyUpdate, retry_operation, repo_investigator_update,
    evidence_aggregator_node]

/-- C5 (amended): the retry cycle carries no retry counter at all: for a
state on the retry branch (1 to 3 recorded errors), every number of passes
around retry_node → repo_investigator → evidence_aggregator leaves the
router on "retry" — the graph's own routing never terminates such a run;
termination is imposed only by the runtime's external recursion limit. -/
theorem c5_retry_loop_invariant (s : AgentState) (evs : List Evidence) (n : ℕ)
    (h1 : 0 < s.errors.length) (h2 : s.errors.length ≤ 3) :
    should_retry_or_fail ((retryCycle evs)^[n] s) = "retry" := by
  have herr : ((retryCycle evs)^[n] s).errors = s.errors := by
    induction n with
    | zero => rfl
    | succ k ih => rw [Function.iterate_succ_apply', retryCycle_errors, ih]
  simp only [should_retry_or_fail, herr]
  rw [if_neg (by omega), if_pos h1]

/-- C5 witness: five passes around the cycle still route to "retry". -/
theorem c5_retry_loop_invariant_witness :
    should_retry_or_fail ((retryCycle [])^[5] c5State) = "retry" :=
  c5_retry_loop_invariant c5State [] 5 (by decide) (by decide)

/-- C5 (counterexample): a concrete state on the retry branch that the
whole cycle maps to itself — execution loops between retry_node and the
detectives forever, refuting the claimed bounded retry counter and
guaranteed termination. -/
theorem c5_counterexample :
    retryCycle [] c5FixState = c5FixState ∧ should_retry_or_fail c5FixState = "retry" := by
  refine ⟨?_, rfl⟩
  have hev : operatorIor c5FixState.evidences
      (fun k => if k = "repo" then some ([] : List Evidence) else none) = c5FixState.evidences := by
    funext k
    by_cases hk : k = "repo"
    · subst hk; rfl
    · simp [operatorIor, c5FixState, hk]
  simp [retryCycle, applyUpdate, retry_operation, repo_investigator_update,
    evidence_aggregator_node, hev]

/-- Helper: with empty repo and doc evidence lists, per-dimension synthesis
cannot raise; when it produces a result, that result carries the
dimension's id and the dimension had at least one opinion. -/
theorem synthCriterion_ok_of_empty (dim : Dimension) (ops : List JudicialOpinion) (evid : EvidMap)
    (hrepo : (evid "repo").getD [] = []) (hdoc : (evid "doc").getD [] = []) :
    ∃ r, synthCriterion dim ops evid = .ok r
      ∧ ∀ c, r = some c →
          c.dimension_id = dim.id ∧ ops.filter (fun o => o.criterion_id == dim.id) ≠ [] := by
  by_cases hf : ops.filter (fun o => o.criterion_id == dim.id) = []
  · refine ⟨none, by simp [synthCriterion, hf], ?_⟩
    intro c hc
    cases hc
  · have hsd : ∃ fd, synthScoreDissent dim (ops.filter (fun o => o.criterion_id == dim.id)) evid = .ok fd := by
      simp only [synthScoreDissent, hrepo, hdoc, pyAny]
      repeat' split
      all_goals exact ⟨_, rfl⟩
    obtain ⟨fd, hfd⟩ := hsd
    refine ⟨some {
        dimension_id := dim.id
        dimension_name := dim.name
        final_score := fd.1
        judge_opinions := ops.filter (fun o => o.criterion_id == dim.id)
        dissent_summary := fd.2
        remediation := generate_remediation dim.id fd.1 evid }, ?_, ?_⟩
    · simp only [synthCriterion]
      rw [if_neg (by simp [List.isEmpty_eq_false.mpr hf]), hfd]
    · intro c hc
      cases hc
      exact ⟨rfl, hf⟩

/-- Helper: with empty repo and doc evidence lists, the synthesis loop
succeeds, and every produced CriterionResult belongs to a rubric dimension
that had at least one opinion. -/
theorem dimResults_ok_of_empty (dims : List Dimension) (ops : List JudicialOpinion) (evid : EvidMap)
    (hrepo : (evid "repo").getD [] = []) (hdoc : (evid "doc").getD [] = []) :
    ∃ l, dimResults dims ops evid = .ok l
      ∧ ∀ c ∈ l, ∃ d ∈ dims,
          c.dimension_id = d.id ∧ ops.filter (fun o => o.criterion_id == d.id) ≠ [] := by
  induction dims with
  | nil =>
    refine ⟨[], rfl, ?_⟩
    intro c hc
    exact absurd hc (List.not_mem_nil c)
  | cons d ds ih =>
    obtain ⟨r, hr, hprops⟩ := synthCriterion_ok_of_empty d ops evid hrepo hdoc
    obtain ⟨l, hl, hmem⟩ := ih
    cases r with
    | none =>
      refine ⟨l, by simp only [dimResults, hr, hl], ?_⟩
      intro c hcl
      obtain ⟨d', hd', hprop⟩ := hmem c hcl
      exact ⟨d', List.mem_cons_of_mem d hd', hprop⟩
    | some c0 =>
      refine ⟨c0 :: l, by simp only [dimResults, hr, hl], ?_⟩
      intro c hcl
      rcases List.mem_cons.mp hcl with rfl | hmem'
      · obtain ⟨hid, hfil⟩ := hprops c rfl
        exact ⟨d, List.mem_cons_self d ds, hid, hfil⟩
      · obtain ⟨d', hd', hprop⟩ := hmem c hmem'
        exact ⟨d', List.mem_cons_of_mem d hd', hprop⟩

/-- C7 (amended): a rubric criterion with zero collected opinions is
omitted from the report — no CriterionResult is fabricated for it — but
the node only logs the skip to the console: its returned update appends
NO warning to the state's warnings list.  (Stated for states whose repo
and doc evidence lists are empty, since any non-empty repo list makes the
whole node raise AttributeError instead — see C9.) -/
theorem c7_skip_without_warning (st : AgentState) (dim : Dimension)
    (_hmem : dim ∈ st.rubric_dimensions)
    (hno : st.opinions.filter (fun o => o.criterion_id == dim.id) = [])
    (hrepo : (st.evidences "repo").getD [] = [])
    (hdoc : (st.evidences "doc").getD [] = []) :
    ∃ u, chief_justice_node st = .ok u ∧ u.warnings = []
      ∧ ∃ rep, u.final_report = some rep ∧ ∀ c ∈ rep.criteria, c.dimension_id ≠ dim.id := by
  obtain ⟨l, hl, hmem'⟩ := dimResults_ok_of_empty st.rubric_dimensions st.opinions st.evidences hrepo hdoc
  refine ⟨{ final_report := some {
      repo_url := st.repo_url
      executive_summary := generate_executive_summary l
      overall_score := averageScore l
      criteria := l
      remediation_plan := generate_remediation_plan l } }, ?_, rfl, ?_⟩
  · simp only [chief_justice_node, hl]
  · refine ⟨_, rfl, ?_⟩
    intro c hcl hceq
    obtain ⟨d', hd', hid, hfil⟩ := hmem' c hcl
    have hdd : d'.id = dim.id := by rw [← hid, hceq]
    apply hfil
    rw [hdd]
    exact hno

/-- C7 witness: two rubric dimensions, opinions only for the second: the
node succeeds, appends no warning, and its report carries no result for
the opinion-less dimension. -/
theorem c7_skip_without_warning_witness :
    (chief_justice_node c7WitState).map (fun u => u.warnings) = .ok ([] : List String)
    ∧ (chief_justice_node c7WitState).map
        (fun u => u.final_report.map
          (fun rep => rep.criteria.filter (fun c => c.dimension_id == "state_management_rigor")))
      = .ok (some ([] : List CriterionResult)) := by
  obtain ⟨u, hu, hw, rep, hrep, hnot⟩ :=
    c7_skip_without_warning c7WitState dimStateMgmt (by decide) (by decide) rfl rfl
  constructor
  · rw [hu]
    simp [Except.map, hw]
  · rw [hu]
    have hfil : rep.criteria.filter (fun c => c.dimension_id == "state_management_rigor") = [] := by
      apply List.filter_eq_nil_iff.mpr
      intro c hcl
      have hne := hnot c hcl
      simp only [dimStateMgmt] at hne
      simp [hne]
    simp [Except.map, hrep, hfil]

/-- C7 (counterexample): at a state whose single rubric dimension has zero
opinions, chief_justice_node omits the criterion as claimed, but the
merged run state's warnings list stays empty — no warning is appended,
refuting the second half of the claim. -/
theorem c7_counterexample :
    (chief_justice_node c7State).map (fun u => (applyUpdate c7State u).warnings) = .ok ([] : List String)
    ∧ (chief_justice_node c7State).map (fun u => u.final_report.map (fun r => r.criteria.length))
      = .ok (some 0) :=
  ⟨rfl, rfl⟩

/-- Helper: the rule cascade on a full [Prosecutor, Defense, TechLead]
opinion set that triggers no override — no security keyword, empty repo
evidence list, Fact Supremacy condition false, not the architecture
criterion — lands in the variance/consensus branch of justice.py:103-122. -/
theorem synthScoreDissent_three (dim : Dimension) (evid : EvidMap)
    (p d t : ℤ) (parg darg targ : String) (pcit dcit tcit : List String) (pn dn tn : Nat)
    (hsec : containsAnyTerm parg securityTerms = false)
    (hrepo : (evid "repo").getD [] = [])
    (hfact : (decide (4 ≤ d) && containsAnyTerm darg depthTerms) = false)
    (harch : dim.id ≠ "graph_orchestration") :
    synthScoreDissent dim
      [{ judge := .Prosecutor, criterion_id := dim.id, score := p, argument := parg, cited_evidence := pcit, timestamp := pn },
       { judge := .Defense, criterion_id := dim.id, score := d, argument := darg, cited_evidence := dcit, timestamp := dn },
       { judge := .TechLead, criterion_id := dim.id, score := t, argument := targ, cited_evidence := tcit, timestamp := tn }] evid =
      (if 2 < max p (max d t) - min p (min d t) then
        .ok ((pySorted [p, d, t])[1]!,
          some ("⚖️ DISSENT: Significant disagreement (variance=" ++ toString (max p (max d t) - min p (min d t)) ++ "). Prosecutor=" ++ toString p ++ ", Defense=" ++ toString d ++ ", Tech=" ++ toString t ++ ". Using median score " ++ toString ((pySorted [p, d, t])[1]!) ++ "."))
      else
        .ok (pyRound (((p : ℚ) + (d : ℚ) + (t : ℚ)) / 3), none)) := by
  have e1 : (Judge.Prosecutor == Judge.Prosecutor) = true := rfl
  have e2 : (Judge.Prosecutor == Judge.Defense) = false := rfl
  have e3 : (Judge.Defense == Judge.Defense) = true := rfl
  have e4 : (Judge.Prosecutor == Judge.TechLead) = false := rfl
  have e5 : (Judge.Defense == Judge.TechLead) = false := rfl
  have e6 : (Judge.TechLead == Judge.TechLead) = true := rfl
  have harch' : (dim.id == "graph_orchestration") = false := beq_eq_false_iff_ne.mpr harch
  simp only [synthScoreDissent, List.find?, e1, e2, e3, e4, e5, e6, hrepo, pyAny,
    hsec, hfact, harch', Bool.or_false, Bool.false_or]
  simp

/-- C4: for every criterion reached by none of the higher-priority rules
(no security keyword in the Prosecutor argument, empty repo evidence list,
Fact Supremacy condition false, not the architecture criterion): when
max-min of the three persona scores exceeds 2 the final score is the
median and a dissent recording all three scores and the variance is
present; otherwise the final score is the rounded arithmetic mean and no
dissent is present. -/
theorem c4_variance_consensus (dim : Dimension) (evid : EvidMap)
    (p d t : ℤ) (parg darg targ : String) (pcit dcit tcit : List String) (pn dn tn : Nat)
    (hsec : containsAnyTerm parg securityTerms = false)
    (hrepo : (evid "repo").getD [] = [])
    (hfact : (decide (4 ≤ d) && containsAnyTerm darg depthTerms) = false)
    (harch : dim.id ≠ "graph_orchestration") :
    (2 < max p (max d t) - min p (min d t) →
      resultView (synthCriterion dim
        [{ judge := .Prosecutor, criterion_id := dim.id, score := p, argument := parg, cited_evidence := pcit, timestamp := pn },
         { judge := .Defense, criterion_id := dim.id, score := d, argument := darg, cited_evidence := dcit, timestamp := dn },
         { judge := .TechLead, criterion_id := dim.id, score := t, argument := targ, cited_evidence := tcit, timestamp := tn }] evid) =
      .ok (some ((pySorted [p, d, t])[1]!,
        some ("⚖️ DISSENT: Significant disagreement (variance=" ++ toString (max p (max d t) - min p (min d t)) ++ "). Prosecutor=" ++ toString p ++ ", Defense=" ++ toString d ++ ", Tech=" ++ toString t ++ ". Using median score " ++ toString ((pySorted [p, d, t])[1]!) ++ "."))))
    ∧ (max p (max d t) - min p (min d t) ≤ 2 →
      resultView (synthCriterion dim
        [{ judge := .Prosecutor, criterion_id := dim.id, score := p, argument := parg, cited_evidence := pcit, timestamp := pn },
         { judge := .Defense, criterion_id := dim.id, score := d, argument := darg, cited_evidence := dcit, timestamp := dn },
         { judge := .TechLead, criterion_id := dim.id, score := t, argument := targ, cited_evidence := tcit, timestamp := tn }] evid) =
      .ok (some (pyRound (((p : ℚ) + (d : ℚ) + (t : ℚ)) / 3), none))) := by
  have hsd := synthScoreDissent_three dim evid p d t parg darg targ pcit dcit tcit pn dn tn
    hsec hrepo hfact harch
  have hfil : List.filter (fun o => o.criterion_id == dim.id)
      [({ judge := .Prosecutor, criterion_id := dim.id, score := p, argument := parg, cited_evidence := pcit, timestamp := pn } : JudicialOpinion),
       { judge := .Defense, criterion_id := dim.id, score := d, argument := darg, cited_evidence := dcit, timestamp := dn },
       { judge := .TechLead, criterion_id := dim.id, score := t, argument := targ, cited_evidence := tcit, timestamp := tn }] =
      [{ judge := .Prosecutor, criterion_id := dim.id, score := p, argument := parg, cited_evidence := pcit, timestamp := pn },
       { judge := .Defense, criterion_id := dim.id, score := d, argument := darg, cited_evidence := dcit, timestamp := dn },
       { judge := .TechLead, criterion_id := dim.id, score := t, argument := targ, cited_evidence := tcit, timestamp := tn }] := by
    simp
  constructor
  · intro hvar
    rw [if_pos hvar] at hsd
    simp only [synthCriterion, hfil]
    rw [if_neg (by simp), hsd]
    simp [resultView, Except.map, Option.map]
  · intro hvar
    rw [if_neg (not_lt.mpr hvar)] at hsd
    simp only [synthCriterion, hfil]
    rw [if_neg (by simp), hsd]
    simp [resultView, Except.map, Option.map]

/-- C4 witness: scores [1,5,3] (variance 4) give median 3 with the dissent
recording the scores and variance; scores [3,4,4] (variance 1) give
round(11/3)=4 with no dissent. -/
theorem c4_variance_consensus_witness :
    resultView (synthCriterion dimJudNuance [c4pA, c4dA, c4tA] emptyEvidences)
      = .ok (some (3, some "⚖️ DISSENT: Significant disagreement (variance=4). Prosecutor=1, Defense=5, Tech=3. Using median score 3."))
    ∧ resultView (synthCriterion dimJudNuance [c4pB, c4dB, c4tB] emptyEvidences)
      = .ok (some (4, none)) := by
  constructor
  · have h := (c4_variance_consensus dimJudNuance emptyEvidences 1 5 3
      "lacking tests" "good effort throughout" "average quality" [] [] [] 0 0 0
      (by decide) rfl (by decide) (by decide)).1 (by decide)
    simp only [dimJudNuance] at h
    simp only [c4pA, c4dA, c4tA, mkOp, dimJudNuance]
    rw [h]
    refine congrArg (fun x => Except.ok (some x)) ?_
    decide
  · have h := (c4_variance_consensus dimJudNuance emptyEvidences 3 4 4
      "some gaps remain" "solid work" "maintainable code" [] [] [] 0 0 0
      (by decide) rfl (by decide) (by decide)).2 (by decide)
    simp only [dimJudNuance] at h
    simp only [c4pB, c4dB, c4tB, mkOp, dimJudNuance]
    rw [h]
    have harg : ((((3 : ℤ) : ℚ)) + (((4 : ℤ) : ℚ)) + (((4 : ℤ) : ℚ))) / 3 = 11 / 3 := by
      norm_num
    have hfl : (⌊(11 : ℚ) / 3⌋ : ℤ) = 3 := by
      norm_num [Int.floor_eq_iff]
    have hrnd : round ((11 : ℚ) / 3) = 4 := by
      norm_num [round_eq, Int.floor_eq_iff]
    refine congrArg (fun x => Except.ok (some x)) ?_
    rw [harg]
    simp only [pyRound, hfl]
    norm_num [hrnd]

/-- Helper: the cascade on a criterion whose Prosecutor opinion is MISSING
(only Defense and TechLead present) and that triggers no override:
justice.py:43 substitutes the uniform default 3 — not the spec's
persona-specific 1 — for the missing Prosecutor before the variance rules
run, and synthesis succeeds. -/
theorem synthCriterion_defense_tech_view (dim : Dimension) (evid : EvidMap)
    (d t : ℤ) (darg targ : String) (dcit tcit : List String) (dn tn : Nat)
    (hrepo : (evid "repo").getD [] = [])
    (hfact : (decide (4 ≤ d) && containsAnyTerm darg depthTerms) = false)
    (harch : dim.id ≠ "graph_orchestration") :
    resultView (synthCriterion dim
      [{ judge := .Defense, criterion_id := dim.id, score := d, argument := darg, cited_evidence := dcit, timestamp := dn },
       { judge := .TechLead, criterion_id := dim.id, score := t, argument := targ, cited_evidence := tcit, timestamp := tn }] evid) =
      (if 2 < max 3 (max d t) - min 3 (min d t) then
        .ok (some ((pySorted [3, d, t])[1]!,
          some ("⚖️ DISSENT: Significant disagreement (variance=" ++ toString (max 3 (max d t) - min 3 (min d t)) ++ "). Prosecutor=" ++ toString (3 : ℤ) ++ ", Defense=" ++ toString d ++ ", Tech=" ++ toString t ++ ". Using median score " ++ toString ((pySorted [3, d, t])[1]!) ++ ".")))
      else
        .ok (some (pyRound ((((3 : ℤ) : ℚ) + (d : ℚ) + (t : ℚ)) / 3), none))) := by
  have e1 : (Judge.Defense == Judge.Prosecutor) = false := rfl
  have e2 : (Judge.TechLead == Judge.Prosecutor) = false := rfl
  have e3 : (Judge.Defense == Judge.Defense) = true := rfl
  have e4 : (Judge.Defense == Judge.TechLead) = false := rfl
  have e5 : (Judge.TechLead == Judge.TechLead) = true := rfl
  have harch' : (dim.id == "graph_orchestration") = false := beq_eq_false_iff_ne.mpr harch
  have hsd : synthScoreDissent dim
      [{ judge := .Defense, criterion_id := dim.id, score := d, argument := darg, cited_evidence := dcit, timestamp := dn },
       { judge := .TechLead, criterion_id := dim.id, score := t, argument := targ, cited_evidence := tcit, timestamp := tn }] evid =
      (if 2 < max 3 (max d t) - min 3 (min d t) then
        .ok ((pySorted [3, d, t])[1]!,
          some ("⚖️ DISSENT: Significant disagreement (variance=" ++ toString (max 3 (max d t) - min 3 (min d t)) ++ "). Prosecutor=" ++ toString (3 : ℤ) ++ ", Defense=" ++ toString d ++ ", Tech=" ++ toString t ++ ". Using median score " ++ toString ((pySorted [3, d, t])[1]!) ++ "."))
      else
        .ok (pyRound ((((3 : ℤ) : ℚ) + (d : ℚ) + (t : ℚ)) / 3), none)) := by
    simp only [synthScoreDissent, List.find?, e1, e2, e3, e4, e5, hrepo, pyAny, hfact, harch',
      Bool.or_false, Bool.false_or]
    simp
  have hfil : List.filter (fun o => o.criterion_id == dim.id)
      [({ judge := .Defense, criterion_id := dim.id, score := d, argument := darg, cited_evidence := dcit, timestamp := dn } : JudicialOpinion),
       { judge := .TechLead, criterion_id := dim.id, score := t, argument := targ, cited_evidence := tcit, timestamp := tn }] =
      [{ judge := .Defense, criterion_id := dim.id, score := d, argument := darg, cited_evidence := dcit, timestamp := dn },
       { judge := .TechLead, criterion_id := dim.id, score := t, argument := targ, cited_evidence := tcit, timestamp := tn }] := by
    simp
  by_cases hv : 2 < max 3 (max d t) - min 3 (min d t)
  · rw [if_pos hv] at hsd
    rw [if_pos hv]
    simp only [synthCriterion, hfil]
    rw [if_neg (by simp), hsd]
    simp [resultView, Except.map, Option.map]
  · rw [if_neg hv] at hsd
    rw [if_neg hv]
    simp only [synthCriterion, hfil]
    rw [if_neg (by simp), hsd]
    simp [resultView, Except.map, Option.map]

/-- C3 (counterexample): with the Prosecutor opinion missing and Defense /
TechLead both scoring 5, the code synthesizes with the uniform default 3
— variance max-min = 2, so round((3+5+5)/3) = 4 with no dissent — whereas
the claimed persona default Harsh→1 would give variance 4 and median
`(pySorted [1,5,5])[1]! = 5` with a dissent.  The actual final score 4
differs from the claimed 5. -/
theorem c3_counterexample :
    resultView (synthCriterion dimStateMgmt [c3Defense, c3Tech] emptyEvidences) = .ok (some (4, none))
    ∧ (pySorted [specDefaultScore Judge.Prosecutor, 5, 5])[1]! = 5
    ∧ (4 : ℤ) ≠ (pySorted [specDefaultScore Judge.Prosecutor, 5, 5])[1]! := by
  refine ⟨?_, by decide, by decide⟩
  have h := synthCriterion_defense_tech_view dimStateMgmt emptyEvidences 5 5
    "well organized models" "clean and typed" [] [] 0 0 rfl (by decide) (by decide)
  rw [if_neg (by decide)] at h
  simp only [dimStateMgmt] at h
  simp only [c3Defense, c3Tech, mkOp, dimStateMgmt]
  rw [h]
  have harg : ((((3 : ℤ) : ℚ)) + (((5 : ℤ) : ℚ)) + (((5 : ℤ) : ℚ))) / 3 = 13 / 3 := by
    norm_num
  have hfl : (⌊(13 : ℚ) / 3⌋ : ℤ) = 4 := by
    norm_num [Int.floor_eq_iff]
  have hrnd : round ((13 : ℚ) / 3) = 4 := by
    norm_num [round_eq, Int.floor_eq_iff]
  refine congrArg (fun x => Except.ok (some x)) ?_
  rw [harg]
  simp only [pyRound, hfl]
  norm_num [hrnd]

/-- C3 (amended): for a criterion with opinions but a missing Prosecutor
opinion, synthesis substitutes the uniform default score 3 (justice.py:43,
`prosecutor.score if prosecutor else 3`) — not the spec's persona-specific
1/4/3 — before the variance rules run, and it never fails because of the
missing opinion.  (The 1/4/3 defaults live one layer earlier, as the
judge nodes' fallback opinions in judges.py.) -/
theorem c3_missing_opinion_default (dim : Dimension) (evid : EvidMap)
    (d t : ℤ) (darg targ : String) (dcit tcit : List String) (dn tn : Nat)
    (hrepo : (evid "repo").getD [] = [])
    (hfact : (decide (4 ≤ d) && containsAnyTerm darg depthTerms) = false)
    (harch : dim.id ≠ "graph_orchestration") :
    (2 < max 3 (max d t) - min 3 (min d t) →
      resultView (synthCriterion dim
        [{ judge := .Defense, criterion_id := dim.id, score := d, argument := darg, cited_evidence := dcit, timestamp := dn },
         { judge := .TechLead, criterion_id := dim.id, score := t, argument := targ, cited_evidence := tcit, timestamp := tn }] evid) =
      .ok (some ((pySorted [3, d, t])[1]!,
        some ("⚖️ DISSENT: Significant disagreement (variance=" ++ toString (max 3 (max d t) - min 3 (min d t)) ++ "). Prosecutor=" ++ toString (3 : ℤ) ++ ", Defense=" ++ toString d ++ ", Tech=" ++ toString t ++ ". Using median score " ++ toString ((pySorted [3, d, t])[1]!) ++ "."))))
    ∧ (max 3 (max d t) - min 3 (min d t) ≤ 2 →
      resultView (synthCriterion dim
        [{ judge := .Defense, criterion_id := dim.id, score := d, argument := darg, cited_evidence := dcit, timestamp := dn },
         { judge := .TechLead, criterion_id := dim.id, score := t, argument := targ, cited_evidence := tcit, timestamp := tn }] evid) =
      .ok (some (pyRound ((((3 : ℤ) : ℚ) + (d : ℚ) + (t : ℚ)) / 3), none))) := by
  have h := synthCriterion_defense_tech_view dim evid d t darg targ dcit tcit dn tn
    hrepo hfact harch
  constructor
  · intro hv
    rw [h, if_pos hv]
  · intro hv
    rw [h, if_neg (not_lt.mpr hv)]

/-- C3 witness: Defense 5 and TechLead 5 with the Prosecutor missing
synthesize (with the substituted default 3) to round(13/3) = 4 and no
dissent, without failing. -/
theorem c3_missing_opinion_default_witness :
    resultView (synthCriterion dimStateMgmt [c3Defense, c3Tech] emptyEvidences)
      = .ok (some ((4 : ℤ), (none : Option String))) := by
  have h := (c3_missing_opinion_default dimStateMgmt emptyEvidences 5 5
    "well organized models" "clean and typed" [] [] 0 0 rfl (by decide) (by decide)).2 (by decide)
  simp only [dimStateMgmt] at h
  simp only [c3Defense, c3Tech, mkOp, dimStateMgmt]
  rw [h]
  have harg : ((((3 : ℤ) : ℚ)) + (((5 : ℤ) : ℚ)) + (((5 : ℤ) : ℚ))) / 3 = 13 / 3 := by
    norm_num
  have hfl : (⌊(13 : ℚ) / 3⌋ : ℤ) = 4 := by
    norm_num [Int.floor_eq_iff]
  have hrnd : round ((13 : ℚ) / 3) = 4 := by
    norm_num [round_eq, Int.floor_eq_iff]
  refine congrArg (fun x => Except.ok (some x)) ?_
  rw [harg]
  simp only [pyRound, hfl]
  norm_num [hrnd]

/-- Helper: the cascade on a full opinion set whose Defense opinion scores
≥ 4 with a depth keyword (Fact Supremacy trigger, justice.py:76-94),
with no security keyword and empty repo evidence: with an EMPTY doc
evidence list the rule overrules Defense and returns the TechLead score;
with ANY non-empty doc evidence list the corroboration scan reads the
missing `dimension_id` attribute and raises AttributeError. -/
theorem synthScoreDissent_three_fact (dim : Dimension) (evid : EvidMap)
    (p d t : ℤ) (parg darg targ : String) (pcit dcit tcit : List String) (pn dn tn : Nat)
    (hsec : containsAnyTerm parg securityTerms = false)
    (hrepo : (evid "repo").getD [] = [])
    (hds : 4 ≤ d) (hkw : containsAnyTerm darg depthTerms = true) :
    ((evid "doc").getD [] = [] →
      synthScoreDissent dim
        [{ judge := .Prosecutor, criterion_id := dim.id, score := p, argument := parg, cited_evidence := pcit, timestamp := pn },
         { judge := .Defense, criterion_id := dim.id, score := d, argument := darg, cited_evidence := dcit, timestamp := dn },
         { judge := .TechLead, criterion_id := dim.id, score := t, argument := targ, cited_evidence := tcit, timestamp := tn }] evid =
      .ok (t, some ("📊 FACT SUPREMACY: Defense claim of deep understanding not supported by evidence. Using Tech Lead score (" ++ toString t ++ ")."))) 
    ∧ (∀ e es, (evid "doc").getD [] = e :: es →
      synthScoreDissent dim
        [{ judge := .Prosecutor, criterion_id := dim.id, score := p, argument := parg, cited_evidence := pcit, timestamp := pn },
         { judge := .Defense, criterion_id := dim.id, score := d, argument := darg, cited_evidence := dcit, timestamp := dn },
         { judge := .TechLead, criterion_id := dim.id, score := t, argument := targ, cited_evidence := tcit, timestamp := tn }] evid =
      .error .attributeError) := by
  have e1 : (Judge.Prosecutor == Judge.Prosecutor) = true := rfl
  have e2 : (Judge.Prosecutor == Judge.Defense) = false := rfl
  have e3 : (Judge.Defense == Judge.Defense) = true := rfl
  have e4 : (Judge.Prosecutor == Judge.TechLead) = false := rfl
  have e5 : (Judge.Defense == Judge.TechLead) = false := rfl
  have e6 : (Judge.TechLead == Judge.TechLead) = true := rfl
  have hd' : decide (4 ≤ d) = true := decide_eq_true hds
  constructor
  · intro hdoc
    simp only [synthScoreDissent, List.find?, e1, e2, e3, e4, e5, e6, hrepo, hdoc, pyAny,
      hsec, hd', hkw, Bool.or_false, Bool.false_or, Bool.and_self]
    simp
  · intro e es hdoc
    simp only [synthScoreDissent, List.find?, e1, e2, e3, e4, e5, e6, hrepo, hdoc, pyAny,
      hsec, hd', hkw, Bool.or_false, Bool.false_or, Bool.and_self,
      depthEvidencePred, Evidence.getDimensionId]
    simp

/-- C8 (amended): for a criterion not hit by the Security Override whose
Defense opinion scores ≥ 4 with a depth keyword: with an empty doc
evidence list no corroboration can be found and the final score is the
TechLead score with an overrule dissent; with any non-empty doc evidence
list — whether or not a corroborating record is present — the
corroboration scan reads the missing `dimension_id` attribute and
synthesis raises AttributeError, so the supported-evidence branch (which
would assign the Defense score, not fall through to the next rule) is
unreachable. -/
theorem c8_fact_supremacy (dim : Dimension) (evid : EvidMap)
    (p d t : ℤ) (parg darg targ : String) (pcit dcit tcit : List String) (pn dn tn : Nat)
    (hsec : containsAnyTerm parg securityTerms = false)
    (hrepo : (evid "repo").getD [] = [])
    (hds : 4 ≤ d) (hkw : containsAnyTerm darg depthTerms = true) :
    ((evid "doc").getD [] = [] →
      resultView (synthCriterion dim
        [{ judge := .Prosecutor, criterion_id := dim.id, score := p, argument := parg, cited_evidence := pcit, timestamp := pn },
         { judge := .Defense, criterion_id := dim.id, score := d, argument := darg, cited_evidence := dcit, timestamp := dn },
         { judge := .TechLead, criterion_id := dim.id, score := t, argument := targ, cited_evidence := tcit, timestamp := tn }] evid) =
      .ok (some (t, some ("📊 FACT SUPREMACY: Defense claim of deep understanding not supported by evidence. Using Tech Lead score (" ++ toString t ++ ")."))))
    ∧ (∀ e es, (evid "doc").getD [] = e :: es →
      synthCriterion dim
        [{ judge := .Prosecutor, criterion_id := dim.id, score := p, argument := parg, cited_evidence := pcit, timestamp := pn },
         { judge := .Defense, criterion_id := dim.id, score := d, argument := darg, cited_evidence := dcit, timestamp := dn },
         { judge := .TechLead, criterion_id := dim.id, score := t, argument := targ, cited_evidence := tcit, timestamp := tn }] evid =
      .error .attributeError) := by
  obtain ⟨h1, h2⟩ := synthScoreDissent_three_fact dim evid p d t parg darg targ pcit dcit tcit
    pn dn tn hsec hrepo hds hkw
  have hfil : List.filter (fun o => o.criterion_id == dim.id)
      [({ judge := .Prosecutor, criterion_id := dim.id, score := p, argument := parg, cited_evidence := pcit, timestamp := pn } : JudicialOpinion),
       { judge := .Defense, criterion_id := dim.id, score := d, argument := darg, cited_evidence := dcit, timestamp := dn },
       { judge := .TechLead, criterion_id := dim.id, score := t, argument := targ, cited_evidence := tcit, timestamp := tn }] =
      [{ judge := .Prosecutor, criterion_id := dim.id, score := p, argument := parg, cited_evidence := pcit, timestamp := pn },
       { judge := .Defense, criterion_id := dim.id, score := d, argument := darg, cited_evidence := dcit, timestamp := dn },
       { judge := .TechLead, criterion_id := dim.id, score := t, argument := targ, cited_evidence := tcit, timestamp := tn }] := by
    simp
  constructor
  · intro hdoc
    have hsd := h1 hdoc
    simp only [synthCriterion, hfil]
    rw [if_neg (by simp), hsd]
    simp [resultView, Except.map, Option.map]
  · intro e es hdoc
    have hsd := h2 e es hdoc
    simp only [synthCriterion, hfil]
    rw [if_neg (by simp), hsd]

/-- C8 witness: Defense 5 with "deep understanding": empty doc evidence
gives the TechLead score 3 with the overrule dissent; one non-corroborating
doc record makes synthesis raise AttributeError. -/
theorem c8_fact_supremacy_witness :
    resultView (synthCriterion dimJudNuance [c8p, c8d, c8t] emptyEvidences)
      = .ok (some (3, some "📊 FACT SUPREMACY: Defense claim of deep understanding not supported by evidence. Using Tech Lead score (3)."))
    ∧ synthCriterion dimJudNuance [c8p, c8d, c8t] mapDocShallow = .error .attributeError := by
  constructor
  · have h := (c8_fact_supremacy dimJudNuance emptyEvidences 2 5 3
      "needs more tests" "deep understanding of the material" "acceptable quality" [] [] [] 0 0 0
      (by decide) rfl (by decide) (by decide)).1 rfl
    simp only [dimJudNuance] at h
    simp only [c8p, c8d, c8t, mkOp, dimJudNuance]
    rw [h]
    refine congrArg (fun x => Except.ok (some x)) ?_
    decide
  · have h := (c8_fact_supremacy dimJudNuance mapDocShallow 2 5 3
      "needs more tests" "deep understanding of the material" "acceptable quality" [] [] [] 0 0 0
      (by decide) rfl (by decide) (by decide)).2 evDocShallow [] rfl
    simp only [dimJudNuance] at h
    simp only [c8p, c8d, c8t, mkOp, dimJudNuance]
    exact h

/-- C8 (counterexample): with corroborating doc evidence present
(found=true, confidence 0.9), the claim predicts Fact Supremacy does not
match and the variance rule gives median 3; the code instead raises
AttributeError while scanning the doc evidence, because Evidence has no
`dimension_id` field. -/
theorem c8_counterexample :
    synthCriterion dimJudNuance [c8p, c8d, c8t] mapDocDeep = .error .attributeError
    ∧ (pySorted [c8p.score, c8d.score, c8t.score])[1]! = 3 := by
  refine ⟨rfl, by decide⟩
